import Mathlib

/-
Shallow embedding of the ssl-hep/ci-tools release tooling.

Conventions used throughout:
  - HTTP traffic is modelled by oracles: a function from URL to a response
    record (or a fixed response per endpoint, when a function issues a
    bounded number of requests).  Each embedded function takes the oracle
    as an explicit argument.
  - error(message, abort=True) calls sys.exit(1); this is modelled by the
    PyResult.fatal outcome.  error(message, abort=False) and warn(message)
    only log and continue.  An uncaught Python exception (for example a
    KeyError or an IndexError) is modelled by PyResult.exn.
  - Python falsiness of strings is modelled by comparison with the empty
    string; None-able config values are modelled with Option.
-/

/-- Outcome of running a piece of Python code: a normal return value,
a process abort via error(..., abort=True) i.e. sys.exit(1), or an
uncaught exception. -/
inductive PyResult (α : Type) where
  | ok (a : α)
  | fatal
  | exn
deriving DecidableEq, Repr

namespace Repoinfo

/-- The RepoInfo dataclass of repoinfo.py (all fields default to ""). -/
structure RepoInfo where
  name : String := ""
  branch : String := ""
  label : String := ""
  tagtype : String := ""
  semver : String := ""
  tag : String := ""
  commit : String := ""
  newtag : String := ""
  container_repo : String := ""
  container_registry : String := ""
deriving DecidableEq, Repr

/-- generate_repo_url of repoinfo.py. -/
def generate_repo_url (repo_config : RepoInfo) : String :=
  "https://api.github.com/repos/ssl-hep/" ++ repo_config.name

/-- container_url of repoinfo.py: registry-specific existence-check URL. -/
def container_url (repo_config : RepoInfo) (tag : String) : String :=
  match repo_config.container_registry with
  | "dockerhub" =>
      "https://hub.docker.com/v2/repositories/" ++ repo_config.container_repo ++ "/tags/" ++ tag
  | "harbor" =>
      "https://hub.opensciencegrid.org/sslhep/" ++ repo_config.container_repo ++ "/tags/" ++ tag
  | _ => ""

end Repoinfo

namespace Util

/-- The fields of a Python time.struct_time read by generate_calver. -/
structure StructTime where
  tm_year : Nat
  tm_mon : Nat
  tm_mday : Nat
  tm_hour : Nat
  tm_min : Nat
deriving DecidableEq, Repr

/-- Zero padding as done by the Python format specifiers 04 and 02. -/
def padZeros (width : Nat) (n : Nat) : String :=
  let s := toString n
  String.mk (List.replicate (width - s.length) '0') ++ s

/-- generate_calver of util.py: YYYYMMDD-HHMM from a (injected) struct_time. -/
def generate_calver (date : StructTime) : String :=
  padZeros 4 date.tm_year ++ padZeros 2 date.tm_mon ++ padZeros 2 date.tm_mday ++ "-" ++
    padZeros 2 date.tm_hour ++ padZeros 2 date.tm_min

/-- The Python str.lower method (ASCII, which covers every value the tool
reads), written over the character list so that it reduces in the
kernel. -/
def pyLower (s : String) : String :=
  String.mk (s.data.map Char.toLower)

/-- One parsed TOML section as seen by ingest_config: each recognized key
is present (some value) or absent (none). -/
structure TomlSection where
  branch : Option String := none
  label : Option String := none
  tagtype : Option String := none
  semver : Option String := none
  commit : Option String := none
  container_repo : Option String := none
  container_registry : Option String := none
deriving DecidableEq, Repr

/-- The per-section body of ingest_config in util.py.  Reading a missing
required key (branch, label, tagtype, and semver when tagtype is semver)
raises KeyError (exn); an unrecognized tagtype calls error with the default
abort=True (fatal).  The returned Bool records whether the
branch-and-commit-both-set warning was emitted. -/
def ingest_section (name : String) (sec : TomlSection) :
    PyResult (Repoinfo.RepoInfo × Bool) :=
  match sec.branch with
  | none => .exn
  | some branch =>
  match sec.label with
  | none => .exn
  | some label =>
  match sec.tagtype with
  | none => .exn
  | some tt =>
  let tagtype := pyLower tt
  let semverRes : PyResult String :=
    if tagtype = "semver" then
      match sec.semver with
      | none => .exn
      | some sv => .ok sv
    else .ok ""
  match semverRes with
  | .exn => .exn
  | .fatal => .fatal
  | .ok semver =>
  let commit := pyLower (sec.commit.getD "")
  let container_repo := pyLower (sec.container_repo.getD "")
  let container_registry := pyLower (sec.container_registry.getD "")
  if tagtype ≠ "semver" ∧ tagtype ≠ "calver" then .fatal
  else
    let warned := branch ≠ "" ∧ commit ≠ ""
    .ok ({ name := name, branch := branch, label := label, tagtype := tagtype,
           semver := semver, tag := "", commit := commit, newtag := "",
           container_repo := container_repo, container_registry := container_registry },
         decide warned)

/-- A values.yaml document, reduced to the shape replace_tags reads:
named sections, each an association of keys to scalar strings. -/
def ValuesDoc : Type := List (String × List (String × String))

instance : DecidableEq ValuesDoc := by
  unfold ValuesDoc
  infer_instance

/-- A Chart.yaml document, reduced to top-level scalar entries. -/
def ChartDoc : Type := List (String × String)

instance : DecidableEq ChartDoc := by
  unfold ChartDoc
  infer_instance

/-- Python dict key lookup on an association list. -/
def lookupA {α : Type} (k : String) : List (String × α) → Option α
  | [] => none
  | (k2, v) :: rest => if k2 = k then some v else lookupA k rest

/-- Python dict assignment to an existing key on an association list. -/
def setA {α : Type} (k : String) (v : α) : List (String × α) → List (String × α)
  | [] => []
  | (k2, v2) :: rest => if k2 = k then (k2, v) :: rest else (k2, v2) :: setA k v rest

/-- One iteration of the section loop of replace_tags: if the section is
present and has a tag key, set that tag key. -/
def set_tag_in (sec : String) (new_tag : String) (doc : ValuesDoc) : ValuesDoc :=
  match lookupA sec doc with
  | some m => if (lookupA "tag" m).isSome then setA sec (setA "tag" new_tag m) doc else doc
  | none => doc

/-- The document transformation performed by replace_tags in util.py. -/
def replace_tags_doc (doc : ValuesDoc) (new_tag : String) : ValuesDoc :=
  let d := ["app", "didFinder", "CERNOpenData", "codeGen", "x509Secrets"].foldl
    (fun d sec => set_tag_in sec new_tag d) doc
  match lookupA "transformer" d with
  | some m =>
      if (lookupA "defaultTransformerTag" m).isSome then
        setA "transformer" (setA "defaultTransformerTag" new_tag m) d
      else d
  | none => d

/-- replace_tags of util.py over a modelled filesystem (path to optional
document).  A missing file returns immediately; otherwise the document is
rewritten and the temp-file-then-rename step collapses to an update of the
file at the given path. -/
def replace_tags (fs : String → Option ValuesDoc) (file_path new_tag : String) :
    String → Option ValuesDoc :=
  match fs file_path with
  | none => fs
  | some doc => fun p => if p = file_path then some (replace_tags_doc doc new_tag) else fs p

/-- The document transformation performed by replace_appver in util.py. -/
def replace_appver_doc (doc : ChartDoc) (new_tag release_version : String) : ChartDoc :=
  let d := if (lookupA "appVersion" doc).isSome then setA "appVersion" new_tag doc else doc
  if (lookupA "version" d).isSome then setA "version" release_version d else d

/-- replace_appver of util.py over a modelled filesystem. -/
def replace_appver (fs : String → Option ChartDoc) (file_path new_tag release_version : String) :
    String → Option ChartDoc :=
  match fs file_path with
  | none => fs
  | some doc =>
      fun p => if p = file_path then some (replace_appver_doc doc new_tag release_version) else fs p

end Util

namespace Ghlib

/-- The fields of a workflow-run response read by workflows_complete.
conclusion is none when the JSON field is null (run not finished). -/
structure WRun where
  status : Nat
  conclusion : Option String
deriving DecidableEq, Repr

/-- The terminal-conclusion list hardcoded in workflows_complete. -/
def terminalConclusions : List String :=
  ["success", "completed", "cancelled", "failure", "action_required", "timed_out", "skipped"]

/-- The membership test performed on a fetched conclusion (a null
conclusion is never a member of the string list). -/
def isTerminal (c : Option String) : Bool :=
  decide (c ∈ terminalConclusions.map some)

/-- workflows_complete of ghlib.py: iterate over every repo and every
tracked run URL; an HTTP 200 with a non-terminal conclusion clears the
completed flag, and any non-200 status also clears it. -/
def workflows_complete (fetch : String → WRun) (workflow_info : List (String × List String)) :
    Bool :=
  workflow_info.foldl
    (fun completed entry =>
      entry.2.foldl
        (fun completed workflow_url =>
          if (fetch workflow_url).status = 200 then
            if isTerminal (fetch workflow_url).conclusion then completed else false
          else false)
        completed)
    true

/-- The fields of a run-detail response read by get_workflow_status. -/
structure RunDetail where
  status : Nat
  workflow_id : String
  run_status : String
  html_url : String
  jobs_url : String
deriving DecidableEq, Repr

/-- The fields of a jobs response read by get_workflow_status: each job is
a (name, status) pair. -/
structure JobsDetail where
  status : Nat
  jobs : List (String × String)
deriving DecidableEq, Repr

/-- The dictionary built by get_workflow_status. -/
structure WorkflowStatus where
  workflow_id : String
  run_status : String
  url : String
  job_name : String
  job_status : String
deriving DecidableEq, Repr

/-- get_workflow_status of ghlib.py.  ok none models the empty dict
returned on a 404 (logged, abort=False) or on a failed jobs fetch; a
status other than 200 or 404 calls error with abort=True (fatal); an empty
jobs list would make the Python index [-1] raise (exn). -/
def get_workflow_status (fetch : String → RunDetail) (fetchJobs : String → JobsDetail)
    (workflow_url : String) : PyResult (Option WorkflowStatus) :=
  let r := fetch workflow_url
  if r.status = 200 then
    let job_resp := fetchJobs r.jobs_url
    if job_resp.status ≠ 200 then .ok none
    else
      match job_resp.jobs.getLast? with
      | none => .exn
      | some j => .ok (some { workflow_id := r.workflow_id, run_status := r.run_status,
                              url := r.html_url, job_name := j.1, job_status := j.2 })
  else if r.status = 404 then .ok none
  else .fatal

/-- The HTTP responses observed by one call of tag_repo, one per endpoint
it can reach: the token check GET, the commit-verification GET, the
tag-object POST and the ref POST. -/
structure TagRepoEnv where
  token : String
  api_status : Nat
  commit_status : Nat
  tag_post_status : Nat
  ref_post_status : Nat
deriving DecidableEq, Repr

/-- valid_gh_token of ghlib.py: the token must be nonempty and start with
ghp; with query=True a GET to the API root must return 200. -/
def valid_gh_token (api_status : Nat) (token : String) (query : Bool) : Bool :=
  if token ≠ "" ∧ token.startsWith "ghp" = true then
    (if query then decide (api_status = 200) else true)
  else false

/-- verify_commit of ghlib.py: 404 and 422 mean absent, 200 means present,
anything else calls error with the default abort=True (fatal). -/
def verify_commit (commit_status : Nat) (commit : String) : PyResult Bool :=
  if commit = "" then .ok false
  else if commit_status = 404 then .ok false
  else if commit_status = 422 then .ok false
  else if commit_status = 200 then .ok true
  else .fatal

/-- tag_repo of ghlib.py.  The second component counts POSTs issued to the
git/refs endpoint.  A non-201 from the tag-object POST reaches an error
call with the default abort=True on every sub-branch (the return False
after it is dead code), so it is fatal; likewise a non-201 from the ref
POST, which happens after that POST was issued. -/
def tag_repo (env : TagRepoEnv) (repo_config : Repoinfo.RepoInfo) : PyResult Bool × Nat :=
  if valid_gh_token env.api_status env.token true = false then (.ok false, 0)
  else if repo_config.commit = "" then (.ok false, 0)
  else
    match verify_commit env.commit_status repo_config.commit with
    | .fatal => (.fatal, 0)
    | .exn => (.exn, 0)
    | .ok false => (.ok false, 0)
    | .ok true =>
      if env.tag_post_status ≠ 201 then (.fatal, 0)
      else if env.ref_post_status ≠ 201 then (.fatal, 1)
      else (.ok true, 1)

end Ghlib

namespace ReleaseTool

/-- The fields of a branch-detail response read by update_branch_config:
the HTTP status and the head commit sha of the branch. -/
structure BranchResp where
  status : Nat
  sha : String
deriving DecidableEq, Repr

/-- update_branch_config of release_tool.py.  A missing branch name calls
error with the default abort=True (fatal); 404 returns False without
touching the record; 200 overwrites record.commit with the head sha and
returns True; any other status is fatal. -/
def update_branch_config (resp : BranchResp) (repo_config : Repoinfo.RepoInfo) :
    PyResult (Bool × Repoinfo.RepoInfo) :=
  if repo_config.branch = "" then .fatal
  else if resp.status = 404 then .ok (false, repo_config)
  else if resp.status = 200 then .ok (true, { repo_config with commit := resp.sha })
  else .fatal

/-- generate_tag of release_tool.py, with the wall clock made explicit:
unknown tag types fall through the match and return the empty string. -/
def generate_tag (now : Util.StructTime) (repo : Repoinfo.RepoInfo) : String :=
  match repo.tagtype with
  | "calver" => Util.generate_calver now ++ "-" ++ repo.label
  | "semver" => repo.semver ++ "-" ++ repo.label
  | _ => ""

/-- generate_repo_tags of release_tool.py: set the tag of every record. -/
def generate_repo_tags (now : Util.StructTime) (repo_configs : List Repoinfo.RepoInfo) :
    List Repoinfo.RepoInfo :=
  repo_configs.map (fun repo => { repo with tag := generate_tag now repo })

/-- find_container of release_tool.py: an unauthenticated GET of the
registry URL, true exactly on HTTP 200. -/
def find_container (http : String → Nat) (repo : Repoinfo.RepoInfo) (tag : String) : Bool :=
  decide (http (Repoinfo.container_url repo tag) = 200)

/-- The loop of verify_containers: the first record whose container is not
found calls error with the default abort=True (fatal). -/
def verify_loop (http : String → Nat) (tag : String) :
    List Repoinfo.RepoInfo → PyResult Unit
  | [] => .ok ()
  | repo :: rest =>
    if find_container http repo tag then verify_loop http tag rest else .fatal

/-- verify_containers of release_tool.py: an empty tag is fatal; records
with an empty container_registry are filtered out before the check. -/
def verify_containers (http : String → Nat) (tag : String)
    (repo_configs : List Repoinfo.RepoInfo) : PyResult Unit :=
  if tag = "" then .fatal
  else verify_loop http tag (repo_configs.filter (fun repo => repo.container_registry ≠ ""))

/-- The ways the body of the release command can end: normal completion, a
failed step calling error with abort=True (SystemExit, the finally block
still runs), or an IOError swallowed by the except clause. -/
inductive ExitPath where
  | success
  | fatalError
  | ioError
deriving DecidableEq, Repr

/-- The filesystem facts the release command manipulates: whether the
scratch directory acquired with mkdtemp still exists, and the current
working directory. -/
structure FsState where
  tempDirExists : Bool
  cwd : String
deriving DecidableEq, Repr

/-- The scratch-directory lifecycle of the release command in
release_tool.py (lines 375 to 420): mkdtemp creates the directory, chdir
enters it, the body runs to one of the exit paths, and the finally block
restores the working directory; the shutil.rmtree(temp_dir) call in the
finally block is commented out in the source, so no path removes the
directory. -/
def release_scratch (path : ExitPath) (orig_dir temp_dir : String) : FsState × PyResult Unit :=
  let s0 : FsState := { tempDirExists := true, cwd := temp_dir }
  let body : PyResult Unit :=
    match path with
    | .success => .ok ()
    | .fatalError => .fatal
    | .ioError => .ok ()
  let s1 : FsState := { s0 with cwd := orig_dir }
  (s1, body)

end ReleaseTool

namespace TagReleases

/-- generate_tag of tag_releases.py: unlike the release_tool.py variant it
has no fallback return, so unknown tag types return Python None. -/
def generate_tag (now : Util.StructTime) (repo : Repoinfo.RepoInfo) : Option String :=
  match repo.tagtype with
  | "calver" => some (Util.generate_calver now ++ "-" ++ repo.label)
  | "semver" => some (repo.semver ++ "-" ++ repo.label)
  | _ => none

end TagReleases

/-- A single run passes a sweep of workflows_complete exactly when its
fetch returned 200 with a terminal conclusion. -/
def Ghlib.runComplete (fetch : String → Ghlib.WRun) (url : String) : Bool :=
  decide ((fetch url).status = 200) && Ghlib.isTerminal (fetch url).conclusion

lemma Ghlib.inner_foldl_eq (fetch : String → Ghlib.WRun) (ws : List String) (acc : Bool) :
    ws.foldl
      (fun completed workflow_url =>
        if (fetch workflow_url).status = 200 then
          if Ghlib.isTerminal (fetch workflow_url).conclusion then completed else false
        else false)
      acc
    = (acc && ws.all (Ghlib.runComplete fetch)) := by
  induction ws generalizing acc with
  | nil => simp
  | cons u rest ih =>
    rw [List.foldl_cons, List.all_cons, ih]
    by_cases h1 : (fetch u).status = 200
    · by_cases h2 : Ghlib.isTerminal (fetch u).conclusion = true
      · simp [Ghlib.runComplete, h1, h2]
      · simp [Ghlib.runComplete, h1, h2]
    · simp [Ghlib.runComplete, h1]

lemma Ghlib.workflows_complete_eq_all (fetch : String → Ghlib.WRun)
    (workflow_info : List (String × List String)) :
    Ghlib.workflows_complete fetch workflow_info
      = workflow_info.all (fun entry => entry.2.all (Ghlib.runComplete fetch)) := by
  unfold Ghlib.workflows_complete
  suffices h : ∀ (info : List (String × List String)) (acc : Bool),
      info.foldl
        (fun completed entry =>
          entry.2.foldl
            (fun completed workflow_url =>
              if (fetch workflow_url).status = 200 then
                if Ghlib.isTerminal (fetch workflow_url).conclusion then completed else false
              else false)
            completed)
        acc
      = (acc && info.all (fun entry => entry.2.all (Ghlib.runComplete fetch))) by
    rw [h workflow_info true, Bool.true_and]
  intro info
  induction info with
  | nil => simp
  | cons e rest ih =>
    intro acc
    rw [List.foldl_cons, Ghlib.inner_foldl_eq, ih, List.all_cons, Bool.and_assoc]

lemma ReleaseTool.verify_loop_ok_iff (http : String → Nat) (tag : String)
    (l : List Repoinfo.RepoInfo) :
    ReleaseTool.verify_loop http tag l = .ok ()
      ↔ ∀ repo ∈ l, ReleaseTool.find_container http repo tag = true := by
  induction l with
  | nil => simp [ReleaseTool.verify_loop]
  | cons r rest ih =>
    by_cases h : ReleaseTool.find_container http r tag = true
    · simp [ReleaseTool.verify_loop, h, ih]
    · simp [ReleaseTool.verify_loop, h]

/-- C1: the convergence predicate workflows_complete returns true on every
workflow-state map whose runs all fetch with HTTP 200 and a conclusion in
the terminal set, and false on every map containing a run whose conclusion
lies outside the terminal set. -/
theorem C1_workflows_complete_convergence (fetch : String → Ghlib.WRun)
    (workflow_info : List (String × List String)) :
    ((∀ entry ∈ workflow_info, ∀ url ∈ entry.2,
        (fetch url).status = 200
          ∧ (fetch url).conclusion ∈ Ghlib.terminalConclusions.map some) →
      Ghlib.workflows_complete fetch workflow_info = true)
    ∧ ((∃ entry ∈ workflow_info, ∃ url ∈ entry.2,
        (fetch url).conclusion ∉ Ghlib.terminalConclusions.map some) →
      Ghlib.workflows_complete fetch workflow_info = false) := by
  constructor
  · intro h
    rw [Ghlib.workflows_complete_eq_all, List.all_eq_true]
    intro e he
    rw [List.all_eq_true]
    intro url hurl
    obtain ⟨h200, hmem⟩ := h e he url hurl
    simp [Ghlib.runComplete, Ghlib.isTerminal, h200, hmem]
  · rintro ⟨e, he, url, hurl, hnot⟩
    rw [Ghlib.workflows_complete_eq_all, Bool.eq_false_iff]
    intro hall
    rw [List.all_eq_true] at hall
    have h1 := hall e he
    rw [List.all_eq_true] at h1
    have h2 := h1 url hurl
    simp [Ghlib.runComplete, Ghlib.isTerminal] at h2
    exact hnot (List.mem_map.mpr h2.2)

/-- Witness for C1 at concrete inputs: a map whose single run is 200 with
conclusion success converges, and one whose single run has a null
conclusion does not. -/
theorem C1_workflows_complete_convergence_witness :
    Ghlib.workflows_complete (fun _ => { status := 200, conclusion := some "success" })
      [("repo1", ["u1"])] = true
    ∧ Ghlib.workflows_complete (fun _ => { status := 200, conclusion := none })
      [("repo1", ["u1"])] = false :=
  ⟨(C1_workflows_complete_convergence
      (fun _ => { status := 200, conclusion := some "success" }) [("repo1", ["u1"])]).1
    (by decide),
   (C1_workflows_complete_convergence
      (fun _ => { status := 200, conclusion := none }) [("repo1", ["u1"])]).2
    (by decide)⟩

/-- C2 counterexample: a sweep in which one run fetches with HTTP 404 and
the only other run is terminal (200, success) does not converge, so a 404
does block convergence of the batch. -/
theorem C2_counterexample_404_blocks_convergence :
    Ghlib.workflows_complete
      (fun url => if url = "u404" then { status := 404, conclusion := some "success" }
                  else { status := 200, conclusion := some "success" })
      [("repo1", ["u404", "uok"])] = false := by
  decide

/-- C2 amended: in workflows_complete a 404 for any tracked run forces the
sweep to report not converged, while get_workflow_status treats a 404 as
not found and returns the empty status without aborting. -/
theorem C2_amended_404_semantics :
    (∀ (fetch : String → Ghlib.WRun) (workflow_info : List (String × List String))
        (entry : String × List String) (url : String),
        entry ∈ workflow_info → url ∈ entry.2 → (fetch url).status = 404 →
        Ghlib.workflows_complete fetch workflow_info = false)
    ∧ (∀ (fetch : String → Ghlib.RunDetail) (fetchJobs : String → Ghlib.JobsDetail)
        (workflow_url : String),
        (fetch workflow_url).status = 404 →
        Ghlib.get_workflow_status fetch fetchJobs workflow_url = .ok none) := by
  constructor
  · intro fetch info e url he hurl h404
    rw [Ghlib.workflows_complete_eq_all, Bool.eq_false_iff]
    intro hall
    rw [List.all_eq_true] at hall
    have h1 := hall e he
    rw [List.all_eq_true] at h1
    have h2 := h1 url hurl
    simp [Ghlib.runComplete, h404] at h2
  · intro fetch fetchJobs url h404
    simp [Ghlib.get_workflow_status, h404]

/-- Witness for C2 amended at concrete inputs. -/
theorem C2_amended_404_semantics_witness :
    Ghlib.workflows_complete (fun _ => { status := 404, conclusion := some "success" })
      [("repo1", ["u1"])] = false
    ∧ Ghlib.get_workflow_status
        (fun _ => { status := 404, workflow_id := "1", run_status := "done",
                    html_url := "h", jobs_url := "j" })
        (fun _ => { status := 200, jobs := [("job", "completed")] }) "u1" = .ok none :=
  ⟨C2_amended_404_semantics.1 (fun _ => { status := 404, conclusion := some "success" })
      [("repo1", ["u1"])] ("repo1", ["u1"]) "u1" (by decide) (by decide) rfl,
   C2_amended_404_semantics.2
      (fun _ => { status := 404, workflow_id := "1", run_status := "done",
                  html_url := "h", jobs_url := "j" })
      (fun _ => { status := 200, jobs := [("job", "completed")] }) "u1" rfl⟩

/-- C3: whenever the tag-object POST returns a status other than 201,
tag_repo issues zero POSTs to the git/refs endpoint. -/
theorem C3_tag_repo_no_ref_post (env : Ghlib.TagRepoEnv) (repo_config : Repoinfo.RepoInfo)
    (h : env.tag_post_status ≠ 201) :
    (Ghlib.tag_repo env repo_config).2 = 0 := by
  unfold Ghlib.tag_repo
  split
  · rfl
  split
  · rfl
  split
  · rfl
  · rfl
  · rfl
  · simp [h]

/-- Witness for C3 at a concrete environment whose tag-object POST
returns 500. -/
theorem C3_tag_repo_no_ref_post_witness :
    (500 : Nat) ≠ 201
    ∧ (Ghlib.tag_repo
        { token := "ghp_abc", api_status := 200, commit_status := 200,
          tag_post_status := 500, ref_post_status := 201 }
        { name := "test1", branch := "develop", commit := "abc123" }).2 = 0 :=
  ⟨by decide,
   C3_tag_repo_no_ref_post
     { token := "ghp_abc", api_status := 200, commit_status := 200,
       tag_post_status := 500, ref_post_status := 201 }
     { name := "test1", branch := "develop", commit := "abc123" } (by decide)⟩

/-- C4: update_branch_config returns failure with the record untouched on
HTTP 404, returns success with record.commit set to the response head sha
on HTTP 200, and is fatal (process abort) on any other status. -/
theorem C4_update_branch_config_statuses (resp : ReleaseTool.BranchResp)
    (repo_config : Repoinfo.RepoInfo) (h : repo_config.branch ≠ "") :
    (resp.status = 404 →
      ReleaseTool.update_branch_config resp repo_config = .ok (false, repo_config))
    ∧ (resp.status = 200 →
      ReleaseTool.update_branch_config resp repo_config =
        .ok (true, { repo_config with commit := resp.sha }))
    ∧ (resp.status ≠ 404 → resp.status ≠ 200 →
      ReleaseTool.update_branch_config resp repo_config = .fatal) := by
  refine ⟨fun h404 => ?_, fun h200 => ?_, fun h404 h200 => ?_⟩
  · simp [ReleaseTool.update_branch_config, h, h404]
  · simp [ReleaseTool.update_branch_config, h, h200]
  · simp [ReleaseTool.update_branch_config, h, h404, h200]

/-- Witness for C4 at concrete responses 404, 200 and 500. -/
theorem C4_update_branch_config_statuses_witness :
    ReleaseTool.update_branch_config { status := 404, sha := "def456" }
      { name := "svc", branch := "develop", commit := "abc123" }
      = .ok (false, { name := "svc", branch := "develop", commit := "abc123" })
    ∧ ReleaseTool.update_branch_config { status := 200, sha := "def456" }
        { name := "svc", branch := "develop", commit := "abc123" }
      = .ok (true, { name := "svc", branch := "develop", commit := "def456" })
    ∧ ReleaseTool.update_branch_config { status := 500, sha := "def456" }
        { name := "svc", branch := "develop", commit := "abc123" }
      = .fatal :=
  ⟨(C4_update_branch_config_statuses { status := 404, sha := "def456" }
      { name := "svc", branch := "develop", commit := "abc123" } (by decide)).1 rfl,
   (C4_update_branch_config_statuses { status := 200, sha := "def456" }
      { name := "svc", branch := "develop", commit := "abc123" } (by decide)).2.1 rfl,
   (C4_update_branch_config_statuses { status := 500, sha := "def456" }
      { name := "svc", branch := "develop", commit := "abc123" } (by decide)).2.2
     (by decide) (by decide)⟩

/-- C5 counterexample: a record whose tagtype is git (neither calver nor
semver) makes generate_tag return the empty string and generate_repo_tags
proceed normally, and the tag_releases.py variant returns None; neither
aborts. -/
theorem C5_counterexample_unknown_tagtype_produces_value :
    ReleaseTool.generate_tag ⟨2022, 2, 16, 9, 18⟩
      { name := "test1", branch := "develop", label := "dev", tagtype := "git" } = ""
    ∧ ReleaseTool.generate_repo_tags ⟨2022, 2, 16, 9, 18⟩
        [{ name := "test1", branch := "develop", label := "dev", tagtype := "git" }]
      = [{ name := "test1", branch := "develop", label := "dev", tagtype := "git", tag := "" }]
    ∧ TagReleases.generate_tag ⟨2022, 2, 16, 9, 18⟩
        { name := "test1", branch := "develop", label := "dev", tagtype := "git" } = none :=
  ⟨rfl, rfl, rfl⟩

/-- C5 amended: a record with an unrecognized tagtype is rejected fatally
at configuration ingestion (before any remote call is made); generate_tag
itself does not abort but returns the empty string for such a record. -/
theorem C5_amended_unknown_tagtype_rejected_at_ingest
    (name : String) (sec : Util.TomlSection) (b l tt : String)
    (hb : sec.branch = some b) (hl : sec.label = some l) (ht : sec.tagtype = some tt)
    (h1 : Util.pyLower tt ≠ "semver") (h2 : Util.pyLower tt ≠ "calver")
    (repo : Repoinfo.RepoInfo) (h3 : repo.tagtype ≠ "calver") (h4 : repo.tagtype ≠ "semver")
    (now : Util.StructTime) :
    Util.ingest_section name sec = .fatal ∧ ReleaseTool.generate_tag now repo = "" := by
  constructor
  · simp [Util.ingest_section, hb, hl, ht, h1, h2]
  · unfold ReleaseTool.generate_tag
    split <;> simp_all

/-- Witness for C5 amended at a concrete section and record with
tagtype git. -/
theorem C5_amended_unknown_tagtype_rejected_at_ingest_witness :
    Util.ingest_section "test1"
      { branch := some "develop", label := some "dev", tagtype := some "git" } = .fatal
    ∧ ReleaseTool.generate_tag ⟨2022, 2, 16, 9, 18⟩
        { name := "test1", branch := "develop", label := "dev", tagtype := "git" } = "" :=
  C5_amended_unknown_tagtype_rejected_at_ingest "test1"
    { branch := some "develop", label := some "dev", tagtype := some "git" }
    "develop" "dev" "git" rfl rfl rfl (by decide) (by decide)
    { name := "test1", branch := "develop", label := "dev", tagtype := "git" }
    (by decide) (by decide) ⟨2022, 2, 16, 9, 18⟩

/-- C6: at ingestion a record with both branch and commit set does emit
the warning, but resolving the branch afterwards (update_branch_config on
HTTP 200) overwrites the pre-supplied commit with the branch head sha, so
the supplied commit does not take precedence. -/
theorem C6_commit_not_preserved_by_branch_resolution :
    Util.ingest_section "svc"
      { branch := some "develop", label := some "dev1", tagtype := some "calver",
        commit := some "ABC123" }
      = .ok ({ name := "svc", branch := "develop", label := "dev1", tagtype := "calver",
               commit := "abc123" }, true)
    ∧ ReleaseTool.update_branch_config { status := 200, sha := "def456" }
        { name := "svc", branch := "develop", label := "dev1", tagtype := "calver",
          commit := "abc123" }
      = .ok (true, { name := "svc", branch := "develop", label := "dev1", tagtype := "calver",
                     commit := "def456" })
    ∧ "def456" ≠ "abc123" :=
  ⟨by decide, by decide, by decide⟩

/-- C7: on every exit path of the release command (success, fatal step
error, swallowed IOError) the scratch directory acquired by mkdtemp still
exists when the command ends; only the working directory is restored. -/
theorem C7_scratch_dir_not_removed (path : ReleaseTool.ExitPath) (orig_dir temp_dir : String) :
    (ReleaseTool.release_scratch path orig_dir temp_dir).1.tempDirExists = true
    ∧ (ReleaseTool.release_scratch path orig_dir temp_dir).1.cwd = orig_dir := by
  cases path <;> exact ⟨rfl, rfl⟩

/-- C8: tag generation is deterministic given the injected instant
2022-02-16T09:18 UTC; calver with label develop1 gives
20220216-0918-develop1 and semver 1.2.4rc2 with label release1 gives
1.2.4rc2-release1. -/
theorem C8_generate_tag_deterministic :
    Util.generate_calver ⟨2022, 2, 16, 9, 18⟩ = "20220216-0918"
    ∧ ReleaseTool.generate_tag ⟨2022, 2, 16, 9, 18⟩
        { name := "test1", branch := "develop", label := "develop1", tagtype := "calver" }
      = "20220216-0918-develop1"
    ∧ ReleaseTool.generate_tag ⟨2022, 2, 16, 9, 18⟩
        { name := "test2", branch := "release", label := "release1", tagtype := "semver",
          semver := "1.2.4rc2" }
      = "1.2.4rc2-release1" :=
  ⟨rfl, rfl, rfl⟩

/-- C9: with fixed per-record existence results the overall outcome of
verify_containers is invariant under permutation of the record list, and a
list whose records all have an empty container_registry verifies
successfully (they are skipped, hence vacuously pass). -/
theorem C9_verify_containers_perm_invariant (http : String → Nat) (tag : String)
    (l₁ l₂ : List Repoinfo.RepoInfo) (htag : tag ≠ "") (hperm : l₁.Perm l₂) :
    (ReleaseTool.verify_containers http tag l₁ = .ok ()
      ↔ ReleaseTool.verify_containers http tag l₂ = .ok ())
    ∧ ((∀ repo ∈ l₁, repo.container_registry = "") →
        ReleaseTool.verify_containers http tag l₁ = .ok ()) := by
  constructor
  · unfold ReleaseTool.verify_containers
    simp only [htag, if_false]
    rw [ReleaseTool.verify_loop_ok_iff, ReleaseTool.verify_loop_ok_iff]
    have hp := List.Perm.filter (fun repo => repo.container_registry ≠ "") hperm
    constructor
    · intro h repo hr
      exact h repo (hp.mem_iff.mpr hr)
    · intro h repo hr
      exact h repo (hp.mem_iff.mp hr)
  · intro hall
    unfold ReleaseTool.verify_containers
    simp only [htag, if_false]
    rw [ReleaseTool.verify_loop_ok_iff]
    intro repo hr
    have hmem := List.mem_of_mem_filter hr
    have hdec := List.of_mem_filter hr
    have h2 := hall repo hmem
    simp [h2] at hdec

/-- Witness for C9 at a concrete two-record list and its reversal, one
record per registry kind, with every container present. -/
theorem C9_verify_containers_perm_invariant_witness :
    (ReleaseTool.verify_containers (fun _ => 200) "tag1"
        [{ name := "a", container_registry := "dockerhub", container_repo := "x" },
         { name := "b", container_registry := "harbor", container_repo := "y" }] = .ok ()
      ↔ ReleaseTool.verify_containers (fun _ => 200) "tag1"
        [{ name := "b", container_registry := "harbor", container_repo := "y" },
         { name := "a", container_registry := "dockerhub", container_repo := "x" }] = .ok ())
    ∧ ((∀ repo ∈ ([{ name := "a", container_registry := "dockerhub", container_repo := "x" },
                   { name := "b", container_registry := "harbor", container_repo := "y" }] :
          List Repoinfo.RepoInfo), repo.container_registry = "") →
        ReleaseTool.verify_containers (fun _ => 200) "tag1"
          [{ name := "a", container_registry := "dockerhub", container_repo := "x" },
           { name := "b", container_registry := "harbor", container_repo := "y" }] = .ok ()) :=
  C9_verify_containers_perm_invariant (fun _ => 200) "tag1"
    [{ name := "a", container_registry := "dockerhub", container_repo := "x" },
     { name := "b", container_registry := "harbor", container_repo := "y" }]
    [{ name := "b", container_registry := "harbor", container_repo := "y" },
     { name := "a", container_registry := "dockerhub", container_repo := "x" }]
    (by decide) (by decide)

/-- C10: when the target manifest file does not exist, replace_tags and
replace_appver return without modifying any file and without signalling
any error. -/
theorem C10_replace_missing_file_noop
    (fsV : String → Option Util.ValuesDoc) (fsC : String → Option Util.ChartDoc)
    (vpath cpath new_tag release_version p q : String)
    (hv : fsV vpath = none) (hc : fsC cpath = none) :
    Util.replace_tags fsV vpath new_tag p = fsV p
    ∧ Util.replace_appver fsC cpath new_tag release_version q = fsC q := by
  constructor
  · simp [Util.replace_tags, hv]
  · simp [Util.replace_appver, hc]

/-- Witness for C10 on an empty filesystem. -/
theorem C10_replace_missing_file_noop_witness :
    Util.replace_tags (fun _ => none) "values.yaml" "tag1" "values.yaml"
      = (fun _ => (none : Option Util.ValuesDoc)) "values.yaml"
    ∧ Util.replace_appver (fun _ => none) "Chart.yaml" "tag1" "1.0.0" "Chart.yaml"
      = (fun _ => (none : Option Util.ChartDoc)) "Chart.yaml" :=
  C10_replace_missing_file_noop (fun _ => none) (fun _ => none)
    "values.yaml" "Chart.yaml" "tag1" "1.0.0" "values.yaml" "Chart.yaml" rfl rfl
